import Mathlib

/-!
Verification development for the AutoAudit analyzer module (oumi/analyzer.py).

The Python source is shallowly embedded below.  Python strings are modelled as
Lean `String` values; where character-level iteration is needed we work on the
underlying `List Char`.  The ASCII fragment of the Python case conversion,
whitespace handling and regular-expression character classes is modelled
exactly; all analysed texts and keyword tables in the source are ASCII.

External collaborators (the Tree-sitter parsing library, the Python `ast`
module and the inference engine) are passed in as function parameters, per the
interface the source code uses: a Tree-sitter parse yields a walkable tree of
typed nodes plus a root `has_error` flag, the `ast` fallback yields a
structured syntax error or nothing, and the inference engine yields a response
text or raises.
-/

/-- Whitespace characters of the Python `str.strip` / `str.split` / regex
class (ASCII fragment). -/
def pyIsSpace (c : Char) : Bool :=
  c = ' ' || c = '\t' || c = '\n' || c = '\r' || c = '\x0b' || c = '\x0c'

/-- Python `str.strip()` on a character list. -/
def pyStripL (l : List Char) : List Char :=
  ((l.dropWhile pyIsSpace).reverse.dropWhile pyIsSpace).reverse

/-- Python `str.strip()`. -/
def pyStrip (s : String) : String :=
  ⟨pyStripL s.data⟩

/-- Python `str.lower()` (ASCII fragment). -/
def pyLower (s : String) : String :=
  ⟨s.data.map Char.toLower⟩

/-- Python `str.upper()` (ASCII fragment). -/
def pyUpper (s : String) : String :=
  ⟨s.data.map Char.toUpper⟩

/-- Containment of one character list in another, the Python semantics of
`needle in hay` on strings. -/
def isSubL : List Char → List Char → Bool
  | needle, [] => needle.isEmpty
  | needle, c :: t => needle.isPrefixOf (c :: t) || isSubL needle t

/-- Python `needle in hay` on strings. -/
def pyIn (needle hay : String) : Bool :=
  isSubL needle.data hay.data

/-- Python `s.split(sep)` for a one-character separator, on character lists
(accumulator-based; `cur` holds the current piece reversed). -/
def splitOnCharAux (sep : Char) : List Char → List Char → List (List Char)
  | [], cur => [cur.reverse]
  | c :: rest, cur =>
    if c = sep then cur.reverse :: splitOnCharAux sep rest []
    else splitOnCharAux sep rest (c :: cur)

/-- Python `s.split(newline)` as used throughout the analyzer. -/
def splitLines (s : String) : List (List Char) :=
  splitOnCharAux '\n' s.data []

/-- Python whitespace-splitting `str.split()` (no argument): runs of
whitespace separate the words, empty words are dropped. -/
def pySplitWsAux : List Char → List Char → List (List Char)
  | [], cur => if cur.isEmpty then [] else [cur.reverse]
  | c :: rest, cur =>
    if pyIsSpace c then
      if cur.isEmpty then pySplitWsAux rest []
      else cur.reverse :: pySplitWsAux rest []
    else pySplitWsAux rest (c :: cur)

/-- First word of a string under Python `s.split()[0]`, total with default
empty string (the source only applies it to nonempty language labels). -/
def firstWord (s : String) : String :=
  match pySplitWsAux s.data [] with
  | [] => ""
  | w :: _ => ⟨w⟩

/-- Final path component, the semantics of `pathlib.Path(p).name` on POSIX
paths: empty and single-dot components are dropped. -/
def pyName (p : String) : String :=
  ⟨((splitOnCharAux '/' p.data []).filter (fun part => !part.isEmpty && part ≠ ['.'])).getLastD []⟩

/-- Index of the last occurrence of a character, counting from `i`. -/
def rfindIdxAux (c : Char) : List Char → Nat → Option Nat
  | [], _ => none
  | x :: rest, i =>
    match rfindIdxAux c rest (i + 1) with
    | some j => some j
    | none => if x = c then some i else none

/-- File extension including the dot, the semantics of
`pathlib.Path(p).suffix`: the part of the final component from its last dot,
unless that dot is the first or last character of the component. -/
def pySuffix (p : String) : String :=
  let n := (pyName p).data
  match rfindIdxAux '.' n 0 with
  | some i => if 0 < i ∧ i < n.length - 1 then ⟨n.drop i⟩ else ""
  | none => ""

/-- Extension-to-label table of `OumiAnalyzer._get_file_language`. -/
def extLangMap : List (String × String) :=
  [(".js", "JavaScript"), (".jsx", "JavaScript (React)"), (".ts", "TypeScript"),
   (".tsx", "TypeScript (React)"),
   (".py", "Python"), (".pyw", "Python"),
   (".java", "Java"), (".kt", "Kotlin"), (".scala", "Scala"),
   (".go", "Go"), (".rs", "Rust"), (".c", "C"), (".cpp", "C++"), (".cc", "C++"),
   (".cxx", "C++"), (".h", "C/C++ Header"),
   (".cs", "C#"), (".vb", "Visual Basic"), (".fs", "F#"),
   (".rb", "Ruby"), (".php", "PHP"), (".swift", "Swift"), (".m", "Objective-C"),
   (".dart", "Dart"), (".lua", "Lua"), (".perl", "Perl"), (".pl", "Perl"),
   (".sh", "Shell"), (".bash", "Bash"), (".zsh", "Zsh"),
   (".sol", "Solidity"), (".vy", "Vyper"),
   (".html", "HTML"), (".htm", "HTML"), (".xml", "XML"), (".css", "CSS"),
   (".scss", "SCSS"), (".sass", "Sass"), (".less", "Less"),
   (".json", "JSON"), (".yaml", "YAML"), (".yml", "YAML"), (".toml", "TOML"),
   (".ini", "INI"), (".conf", "Config"),
   (".sql", "SQL"), (".graphql", "GraphQL"), (".gql", "GraphQL"),
   (".md", "Markdown"), (".rst", "reStructuredText"), (".tex", "LaTeX"),
   (".r", "R"), (".jl", "Julia"), (".ex", "Elixir"), (".exs", "Elixir"),
   (".erl", "Erlang"),
   (".clj", "Clojure"), (".hs", "Haskell"), (".ml", "OCaml"),
   (".dockerfile", "Dockerfile"), (".proto", "Protocol Buffer"),
   (".vue", "Vue"), (".svelte", "Svelte")]

/-- `OumiAnalyzer._get_file_language`: map the lower-cased extension through
the table, defaulting to the sentinel label. -/
def get_file_language (file_path : String) : String :=
  let ext := pyLower (pySuffix file_path)
  ((extLangMap.find? (fun kv => kv.1 == ext)).map (fun kv => kv.2)).getD "Unknown"

/-- Extensions with a registered Tree-sitter grammar, the keys of the
`lang_map` built by `OumiAnalyzer._initialize_tree_sitter`. -/
def tsRegisteredExts : List String :=
  [".py", ".js", ".jsx", ".ts", ".tsx", ".java", ".go", ".rs", ".c", ".cpp",
   ".cc", ".cxx", ".h", ".hpp", ".cs", ".php", ".rb", ".sh", ".bash", ".html",
   ".htm", ".css", ".dockerfile", ".kt", ".kts", ".json", ".sql"]

/-- One reported issue record: the dict `{title, body, tags}` the analyzer
builds (GitHub-issue shaped). -/
structure Issue where
  title : String
  body : String
  tags : List String
deriving DecidableEq

-- A Tree-sitter parse-tree node: a type tag, a 0-based start row
-- (node.start_point[0]) and child nodes, mutually defined with forests so
-- that all recursion below is structural.
mutual
inductive TSNode where
  | mk (ty : String) (startRow : Nat) (children : TSForest)
inductive TSForest where
  | nil
  | cons (n : TSNode) (f : TSForest)
end

/-- Type tag of a node. -/
def TSNode.ty : TSNode → String
  | .mk t _ _ => t

/-- Start row (0-based) of a node. -/
def TSNode.startRow : TSNode → Nat
  | .mk _ r _ => r

/-- A Tree-sitter parse result: the root node together with the queryable
`root_node.has_error` flag. -/
structure TSTree where
  rootNode : TSNode
  hasError : Bool

/-- One collected error entry of `_find_syntax_errors`: 1-based line number
and message. -/
structure TSError where
  line : Nat
  msg : String
deriving DecidableEq

/-- Error entry the analyzer records for a node starting at `row`, given the
newline-split file content: `Line` number is `row + 1` and the message embeds
the stripped source line truncated to 50 characters. -/
def tsErrOf (lines : List (List Char)) (row : Nat) : TSError :=
  let line_content := if row < lines.length then lines.getD row [] else []
  { line := row + 1, msg := "Syntax error in code: " ++ String.mk ((pyStripL line_content).take 50) }

-- OumiAnalyzer._find_syntax_errors: walk the tree, collecting an entry for
-- every node whose type is ERROR, parent before children, children in order
-- (pre-order traversal).
mutual
def findErrsNode (lines : List (List Char)) : TSNode → List TSError
  | .mk t row cs => (if t = "ERROR" then [tsErrOf lines row] else []) ++ findErrsForest lines cs
def findErrsForest (lines : List (List Char)) : TSForest → List TSError
  | .nil => []
  | .cons n f => findErrsNode lines n ++ findErrsForest lines f
end

-- Pre-order listing of all nodes of a tree (specification-side helper used
-- to characterise the traversal order of findErrsNode).
mutual
def preorderNode : TSNode → List TSNode
  | .mk t row cs => .mk t row cs :: preorderForest cs
def preorderForest : TSForest → List TSNode
  | .nil => []
  | .cons n f => preorderNode n ++ preorderForest f
end

/-- A structured error from the Python `ast.parse` call (`SyntaxError` fields used
by the analyzer). -/
structure PySyntaxError where
  lineno : Nat
  msg : String
  text : Option String
  offset : Option Nat

/-- Error text built from an `ast.parse` SyntaxError, including the optional
code line and caret marker (a falsy `text` or `offset` — absent, empty or
zero — omits the corresponding part). -/
def pyAstErrorMsg (e : PySyntaxError) : String :=
  let m := "Syntax Error on line " ++ toString e.lineno ++ ": " ++ e.msg ++ "\n"
  match e.text with
  | some t =>
    if t ≠ "" then
      let m2 := m ++ "Code: " ++ pyStrip t ++ "\n"
      match e.offset with
      | some o => if o ≠ 0 then m2 ++ "      " ++ String.mk (List.replicate (o - 1) ' ') ++ "^\n" else m2
      | none => m2
    else m
  | none => m

/-- Issue body template of the Tree-sitter branch of
`_check_syntax_errors`. -/
def tsBody (file_path file_lang error_msg : String) : String :=
  "## File\n`" ++ file_path ++
  "`\n\n## Priority\n**HIGH**\n\n## Type\nbugs\n\n---\n\n**Syntax Errors Detected (" ++
  file_lang ++ "):**\n\n" ++ error_msg ++
  "\n\nThis code will fail to compile/run.\n\n---\n*Detected by Tree-sitter + Oumi*\n"

/-- Issue body template of the `ast.parse` fallback branch of
`_check_syntax_errors`. -/
def pyAstBody (file_path error_msg : String) : String :=
  "## File\n`" ++ file_path ++
  "`\n\n## Priority\n**HIGH**\n\n## Type\nbugs\n\n---\n\n**Syntax Error Detected:**\n\n" ++
  error_msg ++
  "\n\nThis code will fail to compile/run.\n\n---\n*Analysis powered by Oumi Inference Engine*\n"

/-- `OumiAnalyzer._check_syntax_errors`.  The Tree-sitter collaborator is the
function `tsParse` (returns no tree when the grammar subsystem is missing or
parsing raised) and is consulted only for extensions with a registered
grammar; the `ast.parse` collaborator is `pyParse` (returns the structured
error of a failed strict parse, nothing otherwise) and is consulted for
`.py` files when the Tree-sitter branch produced no finding. -/
def check_syntax_errors (tsParse : String → String → Option TSTree)
    (pyParse : String → String → Option PySyntaxError)
    (file_path content : String) : Option Issue :=
  let file_ext := pyLower (pySuffix file_path)
  let file_lang := get_file_language file_path
  let tsRes : Option Issue :=
    if tsRegisteredExts.contains file_ext then
      match tsParse file_path content with
      | some tree =>
        if tree.hasError then
          let errors := findErrsNode (splitLines content) tree.rootNode
          if errors.isEmpty then none
          else
            let error_msg := String.intercalate "\n"
              ((errors.take 5).map (fun e => "Line " ++ toString e.line ++ ": " ++ e.msg))
            some { title := "Syntax Error: " ++ pyName file_path,
                   body := tsBody file_path file_lang error_msg,
                   tags := ["syntax-error", firstWord (pyLower file_lang), "compilation-error"] }
        else none
      | none => none
    else none
  match tsRes with
  | some i => some i
  | none =>
    if file_ext = ".py" then
      match pyParse file_path content with
      | some e =>
        some { title := "Syntax Error: " ++ pyName file_path,
               body := pyAstBody file_path (pyAstErrorMsg e),
               tags := ["syntax-error", "python", "compilation-error"] }
      | none => none
    else none

/-- Critical-priority keywords of `_determine_priority`. -/
def critical_keywords : List String :=
  ["critical", "security vulnerability", "sql injection", "xss", "csrf",
   "authentication bypass", "data breach", "exposed secret", "hardcoded password"]

/-- High-priority keywords of `_determine_priority`. -/
def high_keywords : List String :=
  ["syntax error", "compilation error", "runtime error", "undefined variable",
   "null pointer", "exception", "crash", "bug", "error", "typeerror",
   "nameerror", "attributeerror"]

/-- Medium-priority keywords of `_determine_priority`. -/
def medium_keywords : List String :=
  ["warning", "deprecated", "performance issue", "memory leak", "infinite loop"]

/-- Low-priority keywords of `_determine_priority`. -/
def low_keywords : List String :=
  ["suggestion", "improvement", "best practice", "style", "formatting"]

/-- Python `any(keyword in text_lower for keyword in keywords)`. -/
def kwMatch (text_lower : String) (keywords : List String) : Bool :=
  keywords.any (fun k => pyIn k text_lower)

/-- `OumiAnalyzer._determine_priority`: lower-case the text and test the four
keyword sets in order, first match wins, default medium. -/
def determine_priority (analysis_text : String) : String :=
  let text_lower := pyLower analysis_text
  if kwMatch text_lower critical_keywords then "critical"
  else if kwMatch text_lower high_keywords then "high"
  else if kwMatch text_lower medium_keywords then "medium"
  else if kwMatch text_lower low_keywords then "low"
  else "medium"

/-- The ordered (tag, keyword list) table of `_extract_tags` (`error_tags`;
Python dict literals iterate in insertion order). -/
def error_tags : List (String × List String) :=
  [("syntax", ["syntax error", "syntaxerror", "missing bracket", "missing parenthesis",
               "missing semicolon", "unclosed", "unterminated"]),
   ("type-error", ["type error", "typeerror", "type mismatch", "wrong type", "undefined type"]),
   ("runtime-error", ["runtime error", "runtimeerror", "null pointer", "nullpointerexception",
                      "division by zero", "array out of bounds"]),
   ("reference-error", ["reference error", "referenceerror", "undefined variable",
                        "undefined function", "not defined"]),
   ("import-error", ["import error", "importerror", "module not found", "cannot find module",
                     "missing import"]),
   ("compilation-error", ["compilation error", "compile error", "build error", "build failed"]),
   ("sql-injection", ["sql injection", "sql concatenation", "query concatenation"]),
   ("xss", ["xss", "cross-site scripting", "innerhtml", "dangerouslysetinnerhtml"]),
   ("command-injection", ["command injection", "os.system", "subprocess", "eval", "exec"]),
   ("security", ["security vulnerability", "security issue", "exposed secret",
                 "hardcoded password", "api key"]),
   ("memory-leak", ["memory leak", "unclosed resource", "resource leak"]),
   ("performance", ["performance issue", "infinite loop", "blocking operation",
                    "unnecessary re-render"]),
   ("logic-error", ["logic error", "incorrect condition", "wrong operator", "unreachable code"])]

/-- The table-scanning loop of `_extract_tags`: append a tag the first time
one of its keywords occurs in the text, and stop as soon as 3 tags have been
collected. -/
def collectTags : List (String × List String) → String → List String → List String
  | [], _, acc => acc
  | (tag, kws) :: rest, text, acc =>
    if kws.any (fun k => pyIn k text) then
      let acc2 := acc ++ [tag]
      if 3 ≤ acc2.length then acc2 else collectTags rest text acc2
    else collectTags rest text acc

/-- `OumiAnalyzer._extract_tags`: scan the table over the lower-cased
title-plus-content, then append the first word of the detected language label
if absent, then truncate to 5 entries.  (The source also computes the file
extension here but never uses it.) -/
def extract_tags (title content file_path : String) : List String :=
  let text := pyLower (title ++ " " ++ content)
  let tags := collectTags error_tags text []
  let lang_tag := firstWord (pyLower (get_file_language file_path))
  let tags2 := if lang_tag ≠ "" ∧ lang_tag ∉ tags then tags ++ [lang_tag] else tags
  tags2.take 5

/-- `OumiAnalyzer._format_as_github_issue`: wrap a title/body pair in the
standard issue template (file path, upper-cased priority, analysis-type list,
body, footer); tags are attached by the caller. -/
def format_as_github_issue (file_path issue_title issue_body priority analysis_type : String) : Issue :=
  { title := issue_title,
    body := "## File\n`" ++ file_path ++ "`\n\n## Priority\n**" ++ pyUpper priority ++
            "**\n\n## Type\n" ++ analysis_type ++ "\n\n---\n\n" ++ issue_body ++
            "\n\n---\n\n*Analysis powered by Oumi Inference Engine*\n",
    tags := [] }

/-- The regular-expression match of `_parse_analysis_to_issues`, pattern bullet,
whitespace, Line, whitespace, digits, colon, whitespace, description
on a character list (ASCII character classes): returns the digit group and the
description group on success.  The final group follows greedy matching with
the one backtracking step the Python engine performs when everything after
the colon is whitespace. -/
def matchLine (l : List Char) : Option (String × String) :=
  match l with
  | [] => none
  | c :: rest =>
    if c = '-' ∨ c = '*' then
      let r1 := rest.dropWhile pyIsSpace
      if (['L', 'i', 'n', 'e']).isPrefixOf r1 then
        let r2 := r1.drop 4
        match r2 with
        | [] => none
        | d :: _ =>
          if pyIsSpace d then
            let r3 := r2.dropWhile pyIsSpace
            let digits := r3.takeWhile Char.isDigit
            if digits.isEmpty then none
            else
              match r3.drop digits.length with
              | ':' :: r5 =>
                let ws := r5.takeWhile pyIsSpace
                let t := r5.drop ws.length
                if !t.isEmpty then some (⟨digits⟩, ⟨t.takeWhile (fun ch => ch ≠ '\n')⟩)
                else
                  let nb := ws.filter (fun ch => ch ≠ '\n')
                  if !nb.isEmpty then some (⟨digits⟩, ⟨[nb.getLastD ' ']⟩) else none
              | _ => none
          else none
      else none
    else none

/-- The stripped lines of the text that begin with the two recognised bullet
prefixes — the `issue_lines` pre-filter of `_parse_analysis_to_issues`
(`line.strip().startswith` with the dash or star prefix). -/
def prefilterLines (text : String) : List String :=
  ((splitLines text).map (fun l => pyStrip ⟨l⟩)).filter
    (fun l => "- Line ".data.isPrefixOf l.data || "* Line ".data.isPrefixOf l.data)

/-- Tail of a markdown heading separator after the leading newline and two
hash marks: an optional third hash (matched greedily) followed by at least
one whitespace character, consumed greedily — the `##` / `###` cases of
the `re.split` heading pattern of the segmenter. -/
def headingTail (l : List Char) : Option (List Char) :=
  match l with
  | '#' :: r =>
    match r with
    | c :: _ => if pyIsSpace c then some (r.dropWhile pyIsSpace) else none
    | [] => none
  | c :: _ => if pyIsSpace c then some (l.dropWhile pyIsSpace) else none
  | [] => none

/-- Fuelled scanner for the `re.split` heading pattern of the segmenter: a separator is a
newline, two hashes, an optional third hash and then at least one whitespace
character; every separator occurrence splits the text.  The fuel only needs
to cover the character count, which `splitHeadings` supplies. -/
def splitHeadingsAux : Nat → List Char → List Char → List (List Char)
  | 0, l, cur => [cur.reverse ++ l]
  | _ + 1, [], cur => [cur.reverse]
  | fuel + 1, '\n' :: '#' :: '#' :: rest, cur =>
    match headingTail rest with
    | some r => cur.reverse :: splitHeadingsAux fuel r []
    | none => splitHeadingsAux fuel ('#' :: '#' :: rest) ('\n' :: cur)
  | fuel + 1, c :: rest, cur => splitHeadingsAux fuel rest (c :: cur)

/-- the `re.split` heading pattern of the segmenter on a character list. -/
def splitHeadings (l : List Char) : List (List Char) :=
  splitHeadingsAux (l.length + 1) l []

/-- `OumiAnalyzer._parse_analysis_to_issues` (the Issue Segmenter): reject
empty/near-empty and "no issues detected" inputs; otherwise compute one
priority for the whole text and emit either one record per bulleted
`- Line n: ...` line (line-oriented mode, entered when the pre-filter list is
nonempty) or one record per markdown section of at least 30 characters
(section-oriented mode). -/
def parse_analysis_to_issues (file_path analysis_text : String) (analysis_types : List String) : List Issue :=
  if analysis_text = "" ∨ (pyStrip analysis_text).data.length < 20 then []
  else if pyStrip (pyLower analysis_text) = "no issues detected." ∨
          pyStrip (pyLower analysis_text) = "no issues detected" then []
  else
    let priority := determine_priority analysis_text
    let types_str := String.intercalate ", " analysis_types
    let issue_lines := prefilterLines analysis_text
    if issue_lines ≠ [] then
      issue_lines.filterMap (fun l =>
        (matchLine l.data).map (fun nd =>
          let issue_desc := pyStrip nd.2
          let title0 := "Line " ++ nd.1 ++ ": " ++ String.mk (issue_desc.data.take 60)
          let issue_title := if 60 < issue_desc.data.length then title0 ++ "..." else title0
          let tags := extract_tags issue_title issue_desc file_path
          { format_as_github_issue file_path issue_title
              ("**Line " ++ nd.1 ++ ":** " ++ issue_desc) priority types_str with tags := tags }))
    else
      let sections0 := splitHeadings analysis_text.data
      let sections := if sections0.length < 2 then [analysis_text.data] else sections0
      sections.filterMap (fun secL =>
        let section1 := pyStrip ⟨secL⟩
        if section1 = "" ∨ section1.data.length < 30 then none
        else
          let section2 :=
            if "issues".data.isPrefixOf (pyLower section1).data then pyStrip ⟨section1.data.drop 6⟩
            else section1
          if section2 = "" then none
          else
            let lines := splitLines section2
            let section_title : String := ⟨(lines.headD []).take 80⟩
            let tags := extract_tags section_title section2 file_path
            some { format_as_github_issue file_path (section_title ++ ": " ++ pyName file_path)
                     section2 priority types_str with tags := tags })

/-- The review prompt `analyze_file` builds: detected language, requested
types, extension-based fence hint, content truncated to 80000 characters,
fixed checklist and the optional user context (appended only when truthy,
i.e. present and nonempty). -/
def build_prompt (file_path content : String) (analysis_types : List String)
    (user_prompt : Option String) : String :=
  let types_str := String.intercalate ", " analysis_types
  let user_context :=
    match user_prompt with
    | some up => if up ≠ "" then "\n" ++ up ++ "\n" else ""
    | none => ""
  let file_lang := get_file_language file_path
  let fence := if pySuffix file_path ≠ "" then String.mk ((pySuffix file_path).data.drop 1) else "text"
  "You are analyzing " ++ file_lang ++ " code for: " ++ types_str ++ "\n\n```" ++ fence ++ "\n" ++
  String.mk (content.data.take 80000) ++
  "\n```\n\nCHECK EVERY LINE for these issues:\n- Syntax errors: missing ), \x7d, ], ;, quotes, typos (strin→string)  \n- Division by zero: X/0\n- SQL injection: \"SELECT\" + user_input\n- Null access: value.property without null check\n- Security: eval(), os.system(), hardcoded secrets\n- Logic: if (x = 5) instead of ==, count && <Component/> shows 0\n\nReport ALL problems found:\n### Issues\n- Line X: [problem description]\n\nIf NO problems: \"No issues detected.\"" ++
  user_context

/-- The per-file result dict of `analyze_file`: status is success or error,
issues the produced records, the error message present only on failure, the
model identifier only on success. -/
structure FileResult where
  file : String
  status : String
  issues : List Issue
  error : Option String
  powered_by : String
  model : Option String
deriving DecidableEq

/-- `OumiAnalyzer.analyze_file` (the Analysis Orchestrator): when the
requested types intersect the syntax-triggering set, run the Syntax Checker
and on a finding return it alone with success status; otherwise dispatch the
built prompt to the inference collaborator `infer` — modelled as returning
either the extracted response text or the exception message raised anywhere
in the dispatch/extraction/segmentation block — and segment the response. -/
def analyze_file (model_name : String) (tsParse : String → String → Option TSTree)
    (pyParse : String → String → Option PySyntaxError)
    (infer : String → Except String String)
    (file_path content : String) (analysis_types : List String)
    (user_prompt : Option String) : FileResult :=
  let short : Option Issue :=
    if "bugs" ∈ analysis_types ∨ "linting" ∈ analysis_types ∨ "build" ∈ analysis_types then
      check_syntax_errors tsParse pyParse file_path content
    else none
  match short with
  | some syn =>
    { file := file_path, status := "success", issues := [syn], error := none,
      powered_by := "Oumi Inference Engine", model := some model_name }
  | none =>
    match infer (build_prompt file_path content analysis_types user_prompt) with
    | .error e =>
      { file := file_path, status := "error", issues := [], error := some e,
        powered_by := "Oumi Inference Engine", model := none }
    | .ok analysis_text =>
      { file := file_path, status := "success",
        issues := parse_analysis_to_issues file_path analysis_text analysis_types,
        error := none, powered_by := "Oumi Inference Engine", model := some model_name }

/-- `OumiAnalyzer.analyze_files`: the ordered per-file map of `analyze_file`
over the batch. -/
def analyze_files (model_name : String) (tsParse : String → String → Option TSTree)
    (pyParse : String → String → Option PySyntaxError)
    (infer : String → Except String String)
    (files : List (String × String)) (analysis_types : List String)
    (user_prompt : Option String) : List FileResult :=
  files.map (fun fd => analyze_file model_name tsParse pyParse infer fd.1 fd.2 analysis_types user_prompt)

/-- Stripping never lengthens a character list. -/
theorem pyStripL_length_le (l : List Char) : (pyStripL l).length ≤ l.length := by
  unfold pyStripL
  rw [List.length_reverse]
  calc ((l.dropWhile pyIsSpace).reverse.dropWhile pyIsSpace).length
      ≤ (l.dropWhile pyIsSpace).reverse.length := (List.dropWhile_sublist _).length_le
    _ = (l.dropWhile pyIsSpace).length := List.length_reverse _
    _ ≤ l.length := (List.dropWhile_sublist _).length_le

/-- Stripping never lengthens a string. -/
theorem pyStrip_length_le (s : String) : (pyStrip s).data.length ≤ s.data.length :=
  pyStripL_length_le s.data

/-- A Boolean list prefix survives extending the larger list on the right. -/
theorem isPrefixOf_extend {n h1 : List Char} (h2 : List Char)
    (hp : n.isPrefixOf h1 = true) : n.isPrefixOf (h1 ++ h2) = true := by
  induction n generalizing h1 with
  | nil => simp [List.isPrefixOf]
  | cons a as ih =>
    cases h1 with
    | nil => simp [List.isPrefixOf] at hp
    | cons b bs =>
      simp only [List.isPrefixOf, List.cons_append, Bool.and_eq_true] at hp ⊢
      exact ⟨hp.1, ih hp.2⟩

/-- The empty needle occurs in every haystack. -/
theorem isSubL_nil_left (h : List Char) : isSubL [] h = true := by
  cases h <;> simp [isSubL, List.isPrefixOf]

/-- A prefix is in particular a substring occurrence. -/
theorem isSubL_of_isPrefixOf {n h : List Char} (hp : n.isPrefixOf h = true) :
    isSubL n h = true := by
  cases h with
  | nil =>
    cases n with
    | nil => rfl
    | cons a as => simp [List.isPrefixOf] at hp
  | cons c t => simp [isSubL, hp]

/-- Occurrence is preserved by prepending material. -/
theorem isSubL_append_right {n h : List Char} (x : List Char) (hs : isSubL n h = true) :
    isSubL n (x ++ h) = true := by
  induction x with
  | nil => simpa
  | cons c t ih =>
    rw [List.cons_append]
    simp only [isSubL, Bool.or_eq_true]
    exact Or.inr ih

/-- Occurrence is preserved by appending material. -/
theorem isSubL_append_left {n h : List Char} (y : List Char) (hs : isSubL n h = true) :
    isSubL n (h ++ y) = true := by
  induction h with
  | nil =>
    have hn : n = [] := by
      cases n with
      | nil => rfl
      | cons a as => simp [isSubL, List.isEmpty] at hs
    subst hn
    exact isSubL_nil_left _
  | cons c t ih =>
    rw [List.cons_append]
    simp only [isSubL, Bool.or_eq_true] at hs ⊢
    rcases hs with hp | hsub
    · exact Or.inl (isPrefixOf_extend y hp)
    · exact Or.inr (ih hsub)

/-- Occurrence in one append component gives occurrence in the whole
haystack of shape `s1 ++ (x ++ (s2 ++ y))`. -/
theorem isSubL_embed {lit : List Char} (s1 x s2 y : List Char) (h : isSubL lit s2 = true) :
    isSubL lit (s1 ++ (x ++ (s2 ++ y))) = true :=
  isSubL_append_right s1 (isSubL_append_right x (isSubL_append_left y h))

/-- Anything occurring in the fixed middle template part of `tsBody` occurs
in the whole body. -/
theorem tsBody_contains (p lg m lit : String)
    (h : isSubL lit.data "`\n\n## Priority\n**HIGH**\n\n## Type\nbugs\n\n---\n\n**Syntax Errors Detected (".data = true) :
    isSubL lit.data (tsBody p lg m).data = true := by
  simp only [tsBody, String.data_append, List.append_assoc]
  exact isSubL_embed _ _ _ _ h

/-- Anything occurring in the fixed middle template part of `pyAstBody`
occurs in the whole body. -/
theorem pyAstBody_contains (p m lit : String)
    (h : isSubL lit.data "`\n\n## Priority\n**HIGH**\n\n## Type\nbugs\n\n---\n\n**Syntax Error Detected:**\n\n".data = true) :
    isSubL lit.data (pyAstBody p m).data = true := by
  simp only [pyAstBody, String.data_append, List.append_assoc]
  exact isSubL_embed _ _ _ _ h

/-- Every finding the Syntax Checker produces carries the hard-coded HIGH
priority heading and the hard-coded bugs type heading in its body. -/
theorem check_syntax_errors_body_contains (tsParse : String → String → Option TSTree)
    (pyParse : String → String → Option PySyntaxError) (path content : String) (f : Issue)
    (hf : check_syntax_errors tsParse pyParse path content = some f) :
    isSubL "**HIGH**".data f.body.data = true ∧ isSubL "## Type\nbugs".data f.body.data = true := by
  simp only [check_syntax_errors] at hf
  split at hf
  next i heq =>
    obtain rfl : i = f := by injection hf
    split at heq
    · split at heq
      · split at heq
        · split at heq
          · exact absurd heq (by simp)
          · obtain rfl : _ = i := by injection heq
            exact ⟨tsBody_contains _ _ _ _ (by decide), tsBody_contains _ _ _ _ (by decide)⟩
        · exact absurd heq (by simp)
      · exact absurd heq (by simp)
    · exact absurd heq (by simp)
  next heq =>
    split at hf
    · split at hf
      · obtain rfl : _ = f := by injection hf
        exact ⟨pyAstBody_contains _ _ _ (by decide), pyAstBody_contains _ _ _ (by decide)⟩
      · exact absurd hf (by simp)
    · exact absurd hf (by simp)

/-- The table-scanning loop only ever appends tags drawn (in order, at most
once each) from the table keys. -/
theorem collectTags_acc (table : List (String × List String)) (text : String)
    (acc : List String) :
    ∃ l, collectTags table text acc = acc ++ l ∧ List.Sublist l (table.map Prod.fst) := by
  induction table generalizing acc with
  | nil => exact ⟨[], by simp [collectTags], List.nil_sublist _⟩
  | cons kv rest ih =>
    obtain ⟨tag, kws⟩ := kv
    by_cases hm : kws.any (fun k => pyIn k text) = true
    · by_cases h3 : 3 ≤ (acc ++ [tag]).length
      · refine ⟨[tag], ?_, ?_⟩
        · simp only [collectTags, hm, if_true, if_pos h3]
        · exact (List.nil_sublist _).cons₂ tag
      · obtain ⟨l, hl, hs⟩ := ih (acc ++ [tag])
        refine ⟨tag :: l, ?_, hs.cons₂ tag⟩
        simp only [collectTags, hm, if_true, if_neg h3, hl, List.append_assoc,
          List.singleton_append]
    · obtain ⟨l, hl, hs⟩ := ih acc
      refine ⟨l, ?_, hs.cons tag⟩
      simp only [collectTags, hm, if_false, hl]
      rw [if_neg (by simp [hm])]

/-- The table-scanning loop stops at three collected tags. -/
theorem collectTags_length (table : List (String × List String)) (text : String)
    (acc : List String) (h : acc.length < 3) :
    (collectTags table text acc).length ≤ 3 := by
  induction table generalizing acc with
  | nil => simpa [collectTags] using Nat.le_of_lt h
  | cons kv rest ih =>
    obtain ⟨tag, kws⟩ := kv
    by_cases hm : kws.any (fun k => pyIn k text) = true
    · by_cases h3 : 3 ≤ (acc ++ [tag]).length
      · simp only [collectTags, hm, if_true, if_pos h3]
        simp only [List.length_append, List.length_singleton]
        omega
      · simp only [collectTags, hm, if_true, if_neg h3]
        exact ih _ (by omega)
    · simp only [collectTags, hm, if_false]
      rw [if_neg (by simp [hm])]
      exact ih _ h

/-- The tag keys of the table are pairwise distinct. -/
theorem error_tags_fst_nodup : (error_tags.map Prod.fst).Nodup := by decide

/-- The first word of the lower-cased detected-language label is never empty,
whatever the path. -/
theorem firstWord_lang_ne (path : String) :
    firstWord (pyLower (get_file_language path)) ≠ "" := by
  simp only [get_file_language]
  cases hfind : extLangMap.find? (fun kv => kv.1 == pyLower (pySuffix path)) with
  | none => simp only [Option.map_none', Option.getD_none]; decide
  | some kv =>
    have hmem : kv ∈ extLangMap := List.mem_of_find?_eq_some hfind
    have hall : extLangMap.all (fun kv2 => firstWord (pyLower kv2.2) != "") = true := by decide
    have hkv := List.all_eq_true.mp hall kv hmem
    simp only [Option.map_some', Option.getD_some]
    simpa using hkv

-- The traversal of _find_syntax_errors is exactly: list the nodes in
-- pre-order, keep those typed ERROR, record line number and snippet.
mutual
theorem findErrsNode_eq (lines : List (List Char)) (n : TSNode) :
    findErrsNode lines n =
      ((preorderNode n).filter (fun m => m.ty == "ERROR")).map
        (fun m => tsErrOf lines m.startRow) := by
  cases n with
  | mk t row cs =>
    by_cases h : t = "ERROR"
    · simp [findErrsNode, preorderNode, List.filter_cons, TSNode.ty, TSNode.startRow, h,
        findErrsForest_eq lines cs]
    · simp [findErrsNode, preorderNode, List.filter_cons, TSNode.ty, h,
        findErrsForest_eq lines cs]
theorem findErrsForest_eq (lines : List (List Char)) (f : TSForest) :
    findErrsForest lines f =
      ((preorderForest f).filter (fun m => m.ty == "ERROR")).map
        (fun m => tsErrOf lines m.startRow) := by
  cases f with
  | nil => simp [findErrsForest, preorderForest]
  | cons n g =>
    simp [findErrsForest, preorderForest, List.filter_append, List.map_append,
      findErrsNode_eq lines n, findErrsForest_eq lines g]
end

/-- Unfolding equation for the priority classifier. -/
theorem determine_priority_eq (t : String) :
    determine_priority t =
      if kwMatch (pyLower t) critical_keywords then "critical"
      else if kwMatch (pyLower t) high_keywords then "high"
      else if kwMatch (pyLower t) medium_keywords then "medium"
      else if kwMatch (pyLower t) low_keywords then "low"
      else "medium" := rfl

/-- The syntax short-circuit of the orchestrator: a triggering type set plus
a Syntax Checker finding yield the one-finding success result, independently
of the inference collaborator. -/
theorem analyze_file_syntax_short (model_name : String)
    (tsParse : String → String → Option TSTree) (pyParse : String → String → Option PySyntaxError)
    (infer : String → Except String String) (file_path content : String)
    (analysis_types : List String) (user_prompt : Option String) (f : Issue)
    (ht : "bugs" ∈ analysis_types ∨ "linting" ∈ analysis_types ∨ "build" ∈ analysis_types)
    (hf : check_syntax_errors tsParse pyParse file_path content = some f) :
    analyze_file model_name tsParse pyParse infer file_path content analysis_types user_prompt =
      { file := file_path, status := "success", issues := [f], error := none,
        powered_by := "Oumi Inference Engine", model := some model_name } := by
  simp only [analyze_file, if_pos ht, hf]

/-- The inference-failure path of the orchestrator: no short-circuit plus a
raising collaborator yield the per-file error result carrying the exception
message. -/
theorem analyze_file_infer_error (model_name : String)
    (tsParse : String → String → Option TSTree) (pyParse : String → String → Option PySyntaxError)
    (infer : String → Except String String) (file_path content : String)
    (analysis_types : List String) (user_prompt : Option String) (e : String)
    (hok : ("bugs" ∈ analysis_types ∨ "linting" ∈ analysis_types ∨ "build" ∈ analysis_types) →
      check_syntax_errors tsParse pyParse file_path content = none)
    (he : infer (build_prompt file_path content analysis_types user_prompt) = Except.error e) :
    analyze_file model_name tsParse pyParse infer file_path content analysis_types user_prompt =
      { file := file_path, status := "error", issues := [], error := some e,
        powered_by := "Oumi Inference Engine", model := none } := by
  by_cases hi : "bugs" ∈ analysis_types ∨ "linting" ∈ analysis_types ∨ "build" ∈ analysis_types
  · simp only [analyze_file, if_pos hi, hok hi, he]
  · simp only [analyze_file, if_neg hi, he]

/-- C3: classifyPriority is a total deterministic function returning exactly
one of critical, high, medium, low, obtained by lower-casing the input and
testing the four keyword sets in fixed order with first-match-wins semantics
and default medium when no keyword of any set matches. -/
theorem c3_classify_priority_total (t : String) :
    (determine_priority t = "critical" ∨ determine_priority t = "high" ∨
     determine_priority t = "medium" ∨ determine_priority t = "low") ∧
    (determine_priority t = "critical" ↔ kwMatch (pyLower t) critical_keywords = true) ∧
    (determine_priority t = "high" ↔
      (kwMatch (pyLower t) critical_keywords = false ∧
       kwMatch (pyLower t) high_keywords = true)) ∧
    (determine_priority t = "low" ↔
      (kwMatch (pyLower t) critical_keywords = false ∧
       kwMatch (pyLower t) high_keywords = false ∧
       kwMatch (pyLower t) medium_keywords = false ∧
       kwMatch (pyLower t) low_keywords = true)) ∧
    (determine_priority t = "medium" ↔
      (kwMatch (pyLower t) critical_keywords = false ∧
       kwMatch (pyLower t) high_keywords = false ∧
       (kwMatch (pyLower t) medium_keywords = true ∨
        kwMatch (pyLower t) low_keywords = false))) := by
  simp only [determine_priority_eq]
  cases hc : kwMatch (pyLower t) critical_keywords <;>
    cases hh : kwMatch (pyLower t) high_keywords <;>
      cases hm : kwMatch (pyLower t) medium_keywords <;>
        cases hl : kwMatch (pyLower t) low_keywords <;>
          decide

/-- C10: the classifier keyword tests are plain substring containment with
no word-boundary checks — any text whose lower-casing contains the letters
bug or error as a substring and matches no critical-set keyword classifies
as high. -/
theorem c10_substring_classification (t : String)
    (hb : pyIn "bug" (pyLower t) = true ∨ pyIn "error" (pyLower t) = true)
    (hc : kwMatch (pyLower t) critical_keywords = false) :
    determine_priority t = "high" := by
  have hh : kwMatch (pyLower t) high_keywords = true := by
    rcases hb with h | h
    · exact List.any_eq_true.mpr ⟨"bug", by decide, h⟩
    · exact List.any_eq_true.mpr ⟨"error", by decide, h⟩
  rw [determine_priority_eq, hc, hh]
  simp

/-- C10 witness: the text "debugging notes for the session" reports no
defect yet classifies as high, because bug occurs inside debugging. -/
theorem c10_witness :
    determine_priority "debugging notes for the session" = "high" :=
  c10_substring_classification "debugging notes for the session" (Or.inl (by decide)) (by decide)

/-- C4: extractTags always returns between 1 and 5 tags with no duplicates:
at most 3 table tags collected in table order, plus the detected-language
first word when absent, truncated to 5. -/
theorem c4_extract_tags_bounds (title content path : String) :
    1 ≤ (extract_tags title content path).length ∧
    (extract_tags title content path).length ≤ 5 ∧
    (extract_tags title content path).Nodup := by
  have hfw := firstWord_lang_ne path
  obtain ⟨l, hl, hs⟩ := collectTags_acc error_tags (pyLower (title ++ " " ++ content)) []
  simp only [List.nil_append] at hl
  have hnd : (collectTags error_tags (pyLower (title ++ " " ++ content)) []).Nodup := by
    rw [hl]; exact error_tags_fst_nodup.sublist hs
  simp only [extract_tags]
  by_cases hcond : firstWord (pyLower (get_file_language path)) ≠ "" ∧
      firstWord (pyLower (get_file_language path)) ∉
        collectTags error_tags (pyLower (title ++ " " ++ content)) []
  · rw [if_pos hcond]
    refine ⟨?_, List.length_take_le _ _, ?_⟩
    · rw [List.length_take, List.length_append]
      simp only [List.length_singleton]
      omega
    · have hnd2 : (collectTags error_tags (pyLower (title ++ " " ++ content)) [] ++
          [firstWord (pyLower (get_file_language path))]).Nodup := by
        rw [List.nodup_append]
        exact ⟨hnd, List.nodup_singleton _, by
          intro a ha hb
          simp only [List.mem_singleton] at hb
          exact hcond.2 (hb ▸ ha)⟩
      exact hnd2.sublist (List.take_sublist _ _)
  · rw [if_neg hcond]
    have hmem : firstWord (pyLower (get_file_language path)) ∈
        collectTags error_tags (pyLower (title ++ " " ++ content)) [] := by
      by_contra hnm
      exact hcond ⟨hfw, hnm⟩
    have hpos : 0 < (collectTags error_tags (pyLower (title ++ " " ++ content)) []).length :=
      List.length_pos.mpr (List.ne_nil_of_mem hmem)
    refine ⟨?_, List.length_take_le _ _, hnd.sublist (List.take_sublist _ _)⟩
    rw [List.length_take]
    omega

/-- C8: the segmenter returns no records for texts shorter than 20
characters (in particular the empty text) and for texts that strip and
lower-case to the no-issues sentinel, with or without the trailing
period. -/
theorem c8_segment_rejects (path : String) (types : List String) (text : String) :
    (text.data.length < 20 → parse_analysis_to_issues path text types = []) ∧
    (pyStrip (pyLower text) = "no issues detected" →
      parse_analysis_to_issues path text types = []) ∧
    (pyStrip (pyLower text) = "no issues detected." →
      parse_analysis_to_issues path text types = []) := by
  refine ⟨fun h => ?_, fun h => ?_, fun h => ?_⟩
  · have hlt : (pyStrip text).data.length < 20 :=
      lt_of_le_of_lt (pyStrip_length_le text) h
    simp only [parse_analysis_to_issues]
    rw [if_pos (Or.inr hlt)]
  · by_cases h1 : text = "" ∨ (pyStrip text).data.length < 20
    · simp only [parse_analysis_to_issues]
      rw [if_pos h1]
    · simp only [parse_analysis_to_issues]
      rw [if_neg h1, if_pos (Or.inr h)]
  · by_cases h1 : text = "" ∨ (pyStrip text).data.length < 20
    · simp only [parse_analysis_to_issues]
      rw [if_pos h1]
    · simp only [parse_analysis_to_issues]
      rw [if_neg h1, if_pos (Or.inl h)]

/-- C8 witness: a 9-character text and a whitespace-padded sentinel text both
produce no records. -/
theorem c8_witness :
    parse_analysis_to_issues "f.py" "too short" ["bugs"] = [] ∧
    parse_analysis_to_issues "f.py" "   No Issues Detected.   " ["bugs"] = [] :=
  ⟨(c8_segment_rejects "f.py" ["bugs"] "too short").1 (by decide),
   (c8_segment_rejects "f.py" ["bugs"] "   No Issues Detected.   ").2.2 (by decide)⟩

/-- C2: when the requested types intersect the syntax-triggering set and the
Syntax Checker reports a finding, analyzeFile returns success with exactly
that one record and the result does not depend on the inference
collaborator in any way. -/
theorem c2_syntax_short_circuit (model_name : String)
    (tsParse : String → String → Option TSTree) (pyParse : String → String → Option PySyntaxError)
    (infer1 infer2 : String → Except String String) (file_path content : String)
    (analysis_types : List String) (user_prompt : Option String) (f : Issue)
    (ht : "bugs" ∈ analysis_types ∨ "linting" ∈ analysis_types ∨ "build" ∈ analysis_types)
    (hf : check_syntax_errors tsParse pyParse file_path content = some f) :
    analyze_file model_name tsParse pyParse infer1 file_path content analysis_types user_prompt =
      { file := file_path, status := "success", issues := [f], error := none,
        powered_by := "Oumi Inference Engine", model := some model_name } ∧
    analyze_file model_name tsParse pyParse infer1 file_path content analysis_types user_prompt =
      analyze_file model_name tsParse pyParse infer2 file_path content analysis_types user_prompt := by
  have h1 := analyze_file_syntax_short model_name tsParse pyParse infer1 file_path content
    analysis_types user_prompt f ht hf
  have h2 := analyze_file_syntax_short model_name tsParse pyParse infer2 file_path content
    analysis_types user_prompt f ht hf
  exact ⟨h1, h1.trans h2.symm⟩

set_option maxRecDepth 8192 in
/-- C2 witness: a syntax-error-producing JavaScript file with requested type
bugs yields exactly one issue with success status, and swapping the inference
collaborator for a raising one does not change the result. -/
theorem c2_witness :
    (analyze_file "gpt-4o-mini" (fun _ _ => some ⟨TSNode.mk "ERROR" 0 TSForest.nil, true⟩)
        (fun _ _ => none) (fun _ => Except.ok "- Line 1: broken") "bad.js" "x(" ["bugs"]
        none).status = "success" ∧
    (analyze_file "gpt-4o-mini" (fun _ _ => some ⟨TSNode.mk "ERROR" 0 TSForest.nil, true⟩)
        (fun _ _ => none) (fun _ => Except.ok "- Line 1: broken") "bad.js" "x(" ["bugs"]
        none).issues.length = 1 ∧
    analyze_file "gpt-4o-mini" (fun _ _ => some ⟨TSNode.mk "ERROR" 0 TSForest.nil, true⟩)
        (fun _ _ => none) (fun _ => Except.ok "- Line 1: broken") "bad.js" "x(" ["bugs"] none =
      analyze_file "gpt-4o-mini" (fun _ _ => some ⟨TSNode.mk "ERROR" 0 TSForest.nil, true⟩)
        (fun _ _ => none) (fun _ => Except.error "network down") "bad.js" "x(" ["bugs"] none := by
  have h := c2_syntax_short_circuit "gpt-4o-mini"
    (fun _ _ => some ⟨TSNode.mk "ERROR" 0 TSForest.nil, true⟩) (fun _ _ => none)
    (fun _ => Except.ok "- Line 1: broken") (fun _ => Except.error "network down")
    "bad.js" "x(" ["bugs"] none
    { title := "Syntax Error: bad.js",
      body := tsBody "bad.js" "JavaScript" "Line 1: Syntax error in code: x(",
      tags := ["syntax-error", "javascript", "compilation-error"] }
    (Or.inl (by decide)) (by decide)
  exact ⟨by rw [h.1], by rw [h.1]; rfl, h.2⟩

/-- C5 counterexample: an exception whose message is the empty string is
converted to a FileResult whose error field is the empty string — the
claimed non-emptiness of the error message does not hold. -/
theorem c5_counterexample :
    analyze_file "gpt-4o-mini" (fun _ _ => none) (fun _ _ => none) (fun _ => Except.error "")
        "notes.txt" "some file content here" ["security"] none =
      { file := "notes.txt", status := "error", issues := [], error := some "",
        powered_by := "Oumi Inference Engine", model := none } := by
  decide

/-- C5 (amended): when the flow reaches inference (no syntax short-circuit)
and the collaborator raises with message e, analyzeFile returns status error,
no issues and exactly that message (non-empty whenever the exception message
is); and analyzeFiles is the ordered per-file map, one result per input file
regardless of per-file failures. -/
theorem c5_error_isolation (model_name : String)
    (tsParse : String → String → Option TSTree) (pyParse : String → String → Option PySyntaxError)
    (infer : String → Except String String) (file_path content : String)
    (analysis_types : List String) (user_prompt : Option String) (e : String)
    (files : List (String × String))
    (hok : ("bugs" ∈ analysis_types ∨ "linting" ∈ analysis_types ∨ "build" ∈ analysis_types) →
      check_syntax_errors tsParse pyParse file_path content = none)
    (he : infer (build_prompt file_path content analysis_types user_prompt) = Except.error e) :
    analyze_file model_name tsParse pyParse infer file_path content analysis_types user_prompt =
      { file := file_path, status := "error", issues := [], error := some e,
        powered_by := "Oumi Inference Engine", model := none } ∧
    analyze_files model_name tsParse pyParse infer files analysis_types user_prompt =
      files.map (fun fd =>
        analyze_file model_name tsParse pyParse infer fd.1 fd.2 analysis_types user_prompt) ∧
    (analyze_files model_name tsParse pyParse infer files analysis_types user_prompt).length =
      files.length :=
  ⟨analyze_file_infer_error model_name tsParse pyParse infer file_path content analysis_types
      user_prompt e hok he,
   rfl,
   by simp [analyze_files]⟩

set_option maxRecDepth 8192 in
/-- C5 witness: a raising collaborator turns one file into a per-file error
result with the exception message, while the two-file batch still yields one
result per file. -/
theorem c5_witness :
    analyze_file "gpt-4o-mini" (fun _ _ => none) (fun _ _ => none)
        (fun _ => Except.error "request timeout") "a.py" "x =" ["bugs"] none =
      { file := "a.py", status := "error", issues := [], error := some "request timeout",
        powered_by := "Oumi Inference Engine", model := none } ∧
    (analyze_files "gpt-4o-mini" (fun _ _ => none) (fun _ _ => none)
        (fun _ => Except.error "request timeout") [("a.py", "x ="), ("b.txt", "hello there")]
        ["bugs"] none).length = 2 ∧
    (analyze_files "gpt-4o-mini" (fun _ _ => none) (fun _ _ => none)
        (fun _ => Except.error "request timeout") [("a.py", "x ="), ("b.txt", "hello there")]
        ["bugs"] none).map FileResult.status = ["error", "error"] := by
  have h := c5_error_isolation "gpt-4o-mini" (fun _ _ => none) (fun _ _ => none)
    (fun _ => Except.error "request timeout") "a.py" "x =" ["bugs"] none "request timeout"
    [("a.py", "x ="), ("b.txt", "hello there")] (fun _ => by decide) rfl
  refine ⟨h.1, h.2.2.trans (by decide), ?_⟩
  rw [h.2.1]
  decide

/-- C9: whenever analyzeFile short-circuits on a syntax finding, the single
returned record body contains the hard-coded HIGH priority heading and the
hard-coded bugs type heading, for every requested-type set that triggers the
check — the type stated in the body is never the comma-joined requested-type
list. -/
theorem c9_syntax_record_hardcoded (model_name : String)
    (tsParse : String → String → Option TSTree) (pyParse : String → String → Option PySyntaxError)
    (infer : String → Except String String) (file_path content : String)
    (analysis_types : List String) (user_prompt : Option String) (f : Issue)
    (ht : "bugs" ∈ analysis_types ∨ "linting" ∈ analysis_types ∨ "build" ∈ analysis_types)
    (hf : check_syntax_errors tsParse pyParse file_path content = some f) :
    (analyze_file model_name tsParse pyParse infer file_path content analysis_types
        user_prompt).issues = [f] ∧
    isSubL "**HIGH**".data f.body.data = true ∧
    isSubL "## Type\nbugs".data f.body.data = true ∧
    (∀ types2, ("bugs" ∈ types2 ∨ "linting" ∈ types2 ∨ "build" ∈ types2) →
      (analyze_file model_name tsParse pyParse infer file_path content types2
          user_prompt).issues = [f]) := by
  have hb := check_syntax_errors_body_contains tsParse pyParse file_path content f hf
  refine ⟨?_, hb.1, hb.2, fun types2 ht2 => ?_⟩
  · rw [analyze_file_syntax_short model_name tsParse pyParse infer file_path content
      analysis_types user_prompt f ht hf]
  · rw [analyze_file_syntax_short model_name tsParse pyParse infer file_path content
      types2 user_prompt f ht2 hf]

set_option maxRecDepth 8192 in
/-- C9 witness: with requested types linting only, the short-circuit record
still states priority HIGH and type bugs in its body, and never the
comma-joined requested-type list. -/
theorem c9_witness :
    (analyze_file "m1" (fun _ _ => some ⟨TSNode.mk "ERROR" 0 TSForest.nil, true⟩)
        (fun _ _ => none) (fun _ => Except.error "down") "app2.js" "z(" ["linting"]
        none).issues.length = 1 ∧
    (analyze_file "m1" (fun _ _ => some ⟨TSNode.mk "ERROR" 0 TSForest.nil, true⟩)
        (fun _ _ => none) (fun _ => Except.error "down") "app2.js" "z(" ["linting"]
        none).issues.all (fun i =>
      isSubL "**HIGH**".data i.body.data && isSubL "## Type\nbugs".data i.body.data &&
      !(isSubL "## Type\nlinting".data i.body.data)) = true := by
  have h := c9_syntax_record_hardcoded "m1"
    (fun _ _ => some ⟨TSNode.mk "ERROR" 0 TSForest.nil, true⟩) (fun _ _ => none)
    (fun _ => Except.error "down") "app2.js" "z(" ["linting"] none
    { title := "Syntax Error: app2.js",
      body := tsBody "app2.js" "JavaScript" "Line 1: Syntax error in code: z(",
      tags := ["syntax-error", "javascript", "compilation-error"] }
    (Or.inr (Or.inl (by decide))) (by decide)
  refine ⟨by rw [h.1]; rfl, ?_⟩
  rw [h.1]
  decide

set_option maxRecDepth 8192 in
/-- C1 counterexample: the line "-Line 12: missing semicolon here" matches
the claimed pattern (no whitespace required after the bullet), yet the
segmenter pre-filter requires the literal prefix followed by one space, so
line-oriented mode is never entered and no record with the claimed title is
produced — the text falls through to section mode instead. -/
theorem c1_counterexample :
    (matchLine "-Line 12: missing semicolon here".data).isSome = true ∧
    20 ≤ (pyStrip "-Line 12: missing semicolon here").data.length ∧
    (parse_analysis_to_issues "test.js" "-Line 12: missing semicolon here" ["bugs"]).map
        Issue.title = ["-Line 12: missing semicolon here: test.js"] ∧
    "Line 12: missing semicolon here" ∉
      (parse_analysis_to_issues "test.js" "-Line 12: missing semicolon here" ["bugs"]).map
        Issue.title := by
  decide

/-- C1 (amended): for a text of stripped length at least 20 that is not the
no-issues sentinel, when at least one stripped line starts with the literal
prefix dash-space-Line-space or star-space-Line-space, the segmenter emits
exactly one record per such pre-filtered line that matches the Line pattern:
title is "Line n: " plus the first 60 description characters (ellipsis when
truncated), inner body is "**Line n:** " plus the full description, and every
record carries the single priority computed over the entire text. -/
theorem c1_line_mode_records (file_path text : String) (types : List String)
    (h20 : 20 ≤ (pyStrip text).data.length)
    (hs1 : pyStrip (pyLower text) ≠ "no issues detected.")
    (hs2 : pyStrip (pyLower text) ≠ "no issues detected")
    (hl : prefilterLines text ≠ []) :
    parse_analysis_to_issues file_path text types =
      (prefilterLines text).filterMap (fun l =>
        (matchLine l.data).map (fun nd =>
          let issue_desc := pyStrip nd.2
          let title0 := "Line " ++ nd.1 ++ ": " ++ String.mk (issue_desc.data.take 60)
          let issue_title := if 60 < issue_desc.data.length then title0 ++ "..." else title0
          let tags := extract_tags issue_title issue_desc file_path
          { format_as_github_issue file_path issue_title
              ("**Line " ++ nd.1 ++ ":** " ++ issue_desc) (determine_priority text)
              (String.intercalate ", " types) with tags := tags })) := by
  have hne : text ≠ "" := by
    intro h
    rw [h] at h20
    exact absurd h20 (by decide)
  simp only [parse_analysis_to_issues]
  rw [if_neg (by push_neg; exact ⟨hne, by omega⟩), if_neg (by push_neg; exact ⟨hs1, hs2⟩),
    if_pos hl]

set_option maxRecDepth 8192 in
/-- C1 witness: the two-line scenario input produces exactly the two records
of the claim, titled per line, and equals the line-mode rendering. -/
theorem c1_witness :
    parse_analysis_to_issues "test.js"
        "- Line 12: missing semicolon\n- Line 45: undefined variable foo" ["bugs"] =
      (prefilterLines
          "- Line 12: missing semicolon\n- Line 45: undefined variable foo").filterMap (fun l =>
        (matchLine l.data).map (fun nd =>
          let issue_desc := pyStrip nd.2
          let title0 := "Line " ++ nd.1 ++ ": " ++ String.mk (issue_desc.data.take 60)
          let issue_title := if 60 < issue_desc.data.length then title0 ++ "..." else title0
          let tags := extract_tags issue_title issue_desc "test.js"
          { format_as_github_issue "test.js" issue_title
              ("**Line " ++ nd.1 ++ ":** " ++ issue_desc)
              (determine_priority
                "- Line 12: missing semicolon\n- Line 45: undefined variable foo")
              (String.intercalate ", " ["bugs"]) with tags := tags })) ∧
    (parse_analysis_to_issues "test.js"
        "- Line 12: missing semicolon\n- Line 45: undefined variable foo" ["bugs"]).map
      Issue.title = ["Line 12: missing semicolon", "Line 45: undefined variable foo"] ∧
    (parse_analysis_to_issues "test.js"
        "- Line 12: missing semicolon\n- Line 45: undefined variable foo" ["bugs"]).length = 2 := by
  have h := c1_line_mode_records "test.js"
    "- Line 12: missing semicolon\n- Line 45: undefined variable foo" ["bugs"]
    (by decide) (by decide) (by decide) (by decide)
  exact ⟨h, by decide, by decide⟩

set_option maxRecDepth 8192 in
/-- C7 counterexample: a text in which no line matches the line-oriented
pattern (the bullet line has no digits) but whose stripped line starts with
the literal pre-filter prefix: the code enters line-oriented mode, the
pattern match fails, and no record at all is produced — although the
section-oriented fallback the claim describes would have produced one for
this 42-character section. -/
theorem c7_counterexample :
    ((splitLines "- Line abc: undefined thing happening here").all
      (fun l => (matchLine l).isNone && (matchLine (pyStripL l)).isNone)) = true ∧
    30 ≤ (pyStrip "- Line abc: undefined thing happening here").data.length ∧
    parse_analysis_to_issues "test.js" "- Line abc: undefined thing happening here" ["bugs"] =
      [] := by
  decide

/-- C7 (amended): for a text of stripped length at least 20 that is not the
no-issues sentinel, when no stripped line starts with the literal pre-filter
prefix dash-space-Line-space or star-space-Line-space (so line-oriented mode
is not entered), the text is split on the markdown heading pattern (two or
three hashes), treated as one whole-text section when the split yields fewer
than two parts, and each stripped section that is nonempty and of length at
least 30 — then trimmed of a leading literal Issues token — produces exactly
one record titled with the first 80 characters of its first line plus the
base name of the file, with the full section text as inner body. -/
theorem c7_section_mode_records (file_path text : String) (types : List String)
    (h20 : 20 ≤ (pyStrip text).data.length)
    (hs1 : pyStrip (pyLower text) ≠ "no issues detected.")
    (hs2 : pyStrip (pyLower text) ≠ "no issues detected")
    (hl : prefilterLines text = []) :
    parse_analysis_to_issues file_path text types =
      (if (splitHeadings text.data).length < 2 then [text.data] else splitHeadings text.data).filterMap
        (fun secL =>
          let section1 := pyStrip ⟨secL⟩
          if section1 = "" ∨ section1.data.length < 30 then none
          else
            let section2 :=
              if "issues".data.isPrefixOf (pyLower section1).data then
                pyStrip ⟨section1.data.drop 6⟩
              else section1
            if section2 = "" then none
            else
              let lines := splitLines section2
              let section_title : String := ⟨(lines.headD []).take 80⟩
              let tags := extract_tags section_title section2 file_path
              some { format_as_github_issue file_path
                       (section_title ++ ": " ++ pyName file_path) section2
                       (determine_priority text) (String.intercalate ", " types) with
                     tags := tags }) := by
  have hne : text ≠ "" := by
    intro h
    rw [h] at h20
    exact absurd h20 (by decide)
  simp only [parse_analysis_to_issues]
  rw [if_neg (by push_neg; exact ⟨hne, by omega⟩), if_neg (by push_neg; exact ⟨hs1, hs2⟩),
    if_neg (not_not_intro hl)]

set_option maxRecDepth 8192 in
/-- C7 witness: a two-section narrative response produces one record per
section of length at least 30, titled with the first line of the section plus the
base name. -/
theorem c7_witness :
    parse_analysis_to_issues "app.js"
        "Here is the analysis of the file contents\n## Null pointer problem\nThe function derefs a null value on line 3"
        ["bugs"] =
      (if (splitHeadings
            "Here is the analysis of the file contents\n## Null pointer problem\nThe function derefs a null value on line 3".data).length < 2
       then ["Here is the analysis of the file contents\n## Null pointer problem\nThe function derefs a null value on line 3".data]
       else splitHeadings
            "Here is the analysis of the file contents\n## Null pointer problem\nThe function derefs a null value on line 3".data).filterMap
        (fun secL =>
          let section1 := pyStrip ⟨secL⟩
          if section1 = "" ∨ section1.data.length < 30 then none
          else
            let section2 :=
              if "issues".data.isPrefixOf (pyLower section1).data then
                pyStrip ⟨section1.data.drop 6⟩
              else section1
            if section2 = "" then none
            else
              let lines := splitLines section2
              let section_title : String := ⟨(lines.headD []).take 80⟩
              let tags := extract_tags section_title section2 "app.js"
              some { format_as_github_issue "app.js"
                       (section_title ++ ": " ++ pyName "app.js") section2
                       (determine_priority
                         "Here is the analysis of the file contents\n## Null pointer problem\nThe function derefs a null value on line 3")
                       (String.intercalate ", " ["bugs"]) with
                     tags := tags }) ∧
    (parse_analysis_to_issues "app.js"
        "Here is the analysis of the file contents\n## Null pointer problem\nThe function derefs a null value on line 3"
        ["bugs"]).map Issue.title =
      ["Here is the analysis of the file contents: app.js", "Null pointer problem: app.js"] ∧
    (parse_analysis_to_issues "app.js"
        "Here is the analysis of the file contents\n## Null pointer problem\nThe function derefs a null value on line 3"
        ["bugs"]).length = 2 := by
  have h := c7_section_mode_records "app.js"
    "Here is the analysis of the file contents\n## Null pointer problem\nThe function derefs a null value on line 3"
    ["bugs"] (by decide) (by decide) (by decide) (by decide)
  exact ⟨h, by decide, by decide⟩

set_option maxRecDepth 8192 in
/-- C6 counterexample: a parse tree whose root reports an error but which
contains no node typed ERROR (as Tree-sitter produces for missing-token
errors) yields no finding at all for a grammar-registered extension — the
premise of the claim holds, its conclusion does not. -/
theorem c6_counterexample :
    (TSTree.mk (TSNode.mk "program" 0 TSForest.nil) true).hasError = true ∧
    check_syntax_errors (fun _ _ => some ⟨TSNode.mk "program" 0 TSForest.nil, true⟩)
      (fun _ _ => none) "a.js" "x" = none := by
  decide

/-- C6 (amended): for a grammar-registered extension whose tree reports an
error and whose pre-order traversal collects at least one ERROR node,
checkSyntax collects exactly the ERROR-typed nodes in pre-order, each with
1-based line number and a message embedding an at-most-50-character snippet
of the stripped offending source line, and returns a single finding whose
body lists the first five collected errors rendered "Line n: msg" joined by
newlines, tagged syntax-error, language first word, compilation-error; when
the traversal collects no ERROR node, the grammar path yields no finding. -/
theorem c6_grammar_findings (tsParse : String → String → Option TSTree)
    (pyParse : String → String → Option PySyntaxError) (path content : String) (tree : TSTree)
    (hts : tsParse path content = some tree)
    (hreg : tsRegisteredExts.contains (pyLower (pySuffix path)) = true)
    (herr : tree.hasError = true)
    (hne : findErrsNode (splitLines content) tree.rootNode ≠ []) :
    findErrsNode (splitLines content) tree.rootNode =
      ((preorderNode tree.rootNode).filter (fun m => m.ty == "ERROR")).map
        (fun m => tsErrOf (splitLines content) m.startRow) ∧
    (∀ e ∈ findErrsNode (splitLines content) tree.rootNode,
      1 ≤ e.line ∧
      ∃ snip : List Char, e.msg.data = "Syntax error in code: ".data ++ snip ∧
        snip.length ≤ 50) ∧
    check_syntax_errors tsParse pyParse path content =
      some { title := "Syntax Error: " ++ pyName path,
             body := tsBody path (get_file_language path)
               (String.intercalate "\n"
                 (((findErrsNode (splitLines content) tree.rootNode).take 5).map
                   (fun e => "Line " ++ toString e.line ++ ": " ++ e.msg))),
             tags := ["syntax-error", firstWord (pyLower (get_file_language path)),
                      "compilation-error"] } := by
  have hie : (findErrsNode (splitLines content) tree.rootNode).isEmpty = false := by
    cases hie0 : (findErrsNode (splitLines content) tree.rootNode).isEmpty
    · rfl
    · exact absurd (List.isEmpty_iff.mp hie0) hne
  refine ⟨findErrsNode_eq _ _, fun e he => ?_, ?_⟩
  · rw [findErrsNode_eq] at he
    obtain ⟨m, _, rfl⟩ := List.mem_map.mp he
    refine ⟨Nat.le_add_left 1 _, (pyStripL (if m.startRow < (splitLines content).length then
        (splitLines content).getD m.startRow [] else [])).take 50, ?_, List.length_take_le _ _⟩
    simp [tsErrOf, String.data_append]
  · simp only [check_syntax_errors, hreg, if_true, hts, herr, hie, Bool.false_eq_true,
      if_false]

set_option maxRecDepth 8192 in
/-- C6 witness: a tree with two ERROR nodes on different rows produces the
two pre-order findings with 1-based line numbers and stripped snippets, and
the single returned finding lists both errors in its body. -/
theorem c6_witness :
    findErrsNode (splitLines "broken line one\nsecond bad line")
        (TSNode.mk "module" 0 (TSForest.cons (TSNode.mk "ERROR" 0 TSForest.nil)
          (TSForest.cons (TSNode.mk "stmt" 1
            (TSForest.cons (TSNode.mk "ERROR" 1 TSForest.nil) TSForest.nil)) TSForest.nil))) =
      [{ line := 1, msg := "Syntax error in code: broken line one" },
       { line := 2, msg := "Syntax error in code: second bad line" }] ∧
    check_syntax_errors
        (fun _ _ => some ⟨TSNode.mk "module" 0 (TSForest.cons (TSNode.mk "ERROR" 0 TSForest.nil)
          (TSForest.cons (TSNode.mk "stmt" 1
            (TSForest.cons (TSNode.mk "ERROR" 1 TSForest.nil) TSForest.nil)) TSForest.nil)), true⟩)
        (fun _ _ => none) "bad.js" "broken line one\nsecond bad line" =
      some { title := "Syntax Error: bad.js",
             body := tsBody "bad.js" "JavaScript"
               "Line 1: Syntax error in code: broken line one\nLine 2: Syntax error in code: second bad line",
             tags := ["syntax-error", "javascript", "compilation-error"] } := by
  have h := c6_grammar_findings
    (fun _ _ => some ⟨TSNode.mk "module" 0 (TSForest.cons (TSNode.mk "ERROR" 0 TSForest.nil)
      (TSForest.cons (TSNode.mk "stmt" 1
        (TSForest.cons (TSNode.mk "ERROR" 1 TSForest.nil) TSForest.nil)) TSForest.nil)), true⟩)
    (fun _ _ => none) "bad.js" "broken line one\nsecond bad line"
    ⟨TSNode.mk "module" 0 (TSForest.cons (TSNode.mk "ERROR" 0 TSForest.nil)
      (TSForest.cons (TSNode.mk "stmt" 1
        (TSForest.cons (TSNode.mk "ERROR" 1 TSForest.nil) TSForest.nil)) TSForest.nil)), true⟩
    rfl (by decide) rfl (by decide)
  exact ⟨by decide, h.2.2.trans (by decide)⟩
